import Mathlib

/-!
# Wizarr core: shallow embedding and verification

This file embeds the permission guards, the media-client base class
(configuration resolution, identity linking, readonly statistics) and the
delegated-authentication service of the Wizarr repository, and proves the
specified properties about them.

Sources embedded:
* `app/services/media/client_base.py` — `MediaClient.__init__`,
  `_attach_server_row`, `generate_image_proxy_url`,
  `_create_user_with_identity_linking`, `get_user_count`, `get_server_info`,
  `get_readonly_statistics`;
* `app/services/jellyfin_auth.py` — `authenticate_jellyfin_user`,
  `_authenticate_against_server`, `create_guest_account_from_jellyfin`;
* `app/decorators.py` — `admin_required`, `guest_allowed`.
-/

namespace Wizarr

/-! ## Data model -/

/-- An `Invitation` row: the fields read by identity linking
(`app/models.Invitation` as used in `client_base.py`). -/
structure Invitation where
  code : String
  unlimited : Bool
deriving Repr, DecidableEq

/-- A `User` row (a remote media-server account, "RemoteUser" in the spec):
the fields read and written by identity linking. -/
structure RemoteUser where
  username : String
  email : Option String
  code : Option String
  identity_id : Option Nat
deriving Repr, DecidableEq

/-- The `user_kwargs` dictionary handed to
`MediaClient._create_user_with_identity_linking`: the keys the function
reads (`code`, `email`) and writes (`identity_id`), plus the username it
passes through to the `User` constructor. -/
structure UserKwargs where
  username : String
  email : Option String
  code : Option String
  identity_id : Option Nat
deriving Repr, DecidableEq

/-- Python truthiness of an optional string: `None` and `""` are falsy
(`if code:` / `if email:` in the source). -/
def otruthy : Option String → Bool
  | none => false
  | some s => !(s == "")

/-! ## Identity linking (`MediaClient._create_user_with_identity_linking`)

The email regex `EMAIL_RE` lives in `app/services/media/service.py`, which is
not part of the embedded sources; the linking logic only uses it as a
syntactic-validity test (`EMAIL_RE.fullmatch(email)`), so it is taken as an
abstract parameter `validEmail` here and every theorem quantifies over it. -/

/-- The pure identity-resolution core of
`MediaClient._create_user_with_identity_linking` (client_base.py:158-182):
given the invitation table and the existing `User` rows, compute the
candidate's kwargs with `identity_id` resolved.  `List.find?` plays the role
of the SQL `first()`. -/
def linkKwargs (validEmail : String → Bool) (invitations : List Invitation)
    (users : List RemoteUser) (kw : UserKwargs) : UserKwargs :=
  match kw.code with
  | none => kw
  | some c =>
    if c = "" then kw
    else
      match invitations.find? (fun inv => inv.code == c) with
      | none => kw
      | some inv =>
        if inv.unlimited then
          -- UNLIMITED invites: only link if same code AND same (valid) email
          match kw.email with
          | none => kw
          | some e =>
            if e = "" then kw
            else if validEmail e then
              match users.find? (fun u => u.code == some c && u.email == some e) with
              | none => kw
              | some ex =>
                match ex.identity_id with
                | none => kw
                | some g => { kw with identity_id := some g }
            else kw
        else
          -- LIMITED invites: always link users with the same code
          match users.find? (fun u => u.code == some c) with
          | none => kw
          | some ex =>
            match ex.identity_id with
            | none => kw
            | some g => { kw with identity_id := some g }

/-- Storage state seen by `_create_user_with_identity_linking`:
the committed `Invitation` and `User` tables, the session's pending (added
but uncommitted) rows, a commit counter, and the log of emails handed to the
external expiry collaborator (`cleanup_expired_user_by_email` lives in
`app/services/expiry.py`, outside the embedded sources, so only the call is
recorded). -/
structure LinkDB where
  invitations : List Invitation
  users : List RemoteUser
  pending : List RemoteUser
  commits : Nat
  cleanupRequests : List String
deriving Repr, DecidableEq

/-- The `User(**user_kwargs)` constructor call. -/
def mkUser (kw : UserKwargs) : RemoteUser :=
  { username := kw.username, email := kw.email, code := kw.code
    identity_id := kw.identity_id }

/-- `MediaClient._create_user_with_identity_linking` (client_base.py:140-192):
resolve the identity group, trigger expiry cleanup for a truthy email,
construct the new `User` and `db.session.add` it (no commit). -/
def createUserWithIdentityLinking (validEmail : String → Bool) (db : LinkDB)
    (kw : UserKwargs) : RemoteUser × LinkDB :=
  let kw1 := linkKwargs validEmail db.invitations db.users kw
  let db1 :=
    if otruthy kw.email then
      { db with cleanupRequests := db.cleanupRequests ++ kw.email.toList }
    else db
  let newUser := mkUser kw1
  (newUser, { db1 with pending := db1.pending ++ [newUser] })

/-- `db.session.commit()` as performed by the callers of the linking helper:
pending rows become committed rows. -/
def commitDB (db : LinkDB) : LinkDB :=
  { db with users := db.users ++ db.pending, pending := [], commits := db.commits + 1 }

/-! ## Authorization guards (`app/decorators.py`)

The ambient `current_user` is a loosely-typed object probed with `hasattr`;
it is embedded as a record whose `Option` fields are `none` exactly when the
attribute is absent. -/

/-- The ambient actor (`flask_login.current_user`) as probed by the guards:
`is_authenticated`, and the optionally-present attributes `is_admin()`
(a method, recorded by its return value), `role`, `has_permission`
(recorded as the predicate's value on each permission name), and `id`. -/
structure Actor where
  is_authenticated : Bool
  is_admin_attr : Option Bool
  role_attr : Option String
  id_attr : Option String

/-- Result of invoking a guarded operation: the framework's
redirect-to-login response, an HTTP 403 abort, or the wrapped operation's
own return value passed through. -/
inductive GuardResult (α : Type) where
  | redirectLogin
  | forbidden
  | ok (value : α)
deriving Repr, DecidableEq

/-- `admin_required` (decorators.py:12-34): login check, then
`hasattr(current_user, 'is_admin') and current_user.is_admin()`, then the
legacy `current_user.id == 'admin'` escape hatch, else `abort(403)`. -/
def admin_required {α : Type} (f : Unit → α) (u : Actor) : GuardResult α :=
  if !u.is_authenticated then .redirectLogin
  else if u.is_admin_attr.getD false then .ok (f ())
  else if u.id_attr == some "admin" then .ok (f ())
  else .forbidden

/-- `guest_allowed` (decorators.py:65-83): login check, then allow any actor
with a `role` attribute or the legacy `id == 'admin'`, else `abort(403)`. -/
def guest_allowed {α : Type} (f : Unit → α) (u : Actor) : GuardResult α :=
  if !u.is_authenticated then .redirectLogin
  else if u.role_attr.isSome || u.id_attr == some "admin" then .ok (f ())
  else .forbidden

/-- An authenticated guest `AdminAccount` as the guards see it: logged in,
`is_admin()` returns `role == "admin"` (false for role `guest`), a `role`
attribute equal to `"guest"`, and a numeric row id (never the legacy
sentinel string `"admin"`). -/
def IsGuestActor (u : Actor) : Prop :=
  u.is_authenticated = true ∧ u.is_admin_attr = some false ∧
    u.role_attr = some "guest" ∧ u.id_attr ≠ some "admin"

/-! ## Delegated authentication (`app/services/jellyfin_auth.py`) -/

/-- The JSON body of a Jellyfin `AuthenticateByName` response, as probed by
`_authenticate_against_server`; every field is optional because the code
reads it with `.get` defaults. `policy` stands for the raw `User.Policy`
blob. -/
structure AuthBody where
  userId : Option String
  userName : Option String
  hasPassword : Option Bool
  hasConfiguredPassword : Option Bool
  serverId : Option String
  accessToken : Option String
  policy : Option String
deriving Repr, DecidableEq

/-- The normalized `user_info` dictionary built on a 200 response
(jellyfin_auth.py:86-94). -/
structure UserInfo where
  id : Option String
  name : Option String
  has_password : Bool
  has_configured_password : Bool
  server_id : Option String
  access_token : Option String
  policy : Option String
deriving Repr, DecidableEq

/-- The dictionary extraction on a 200 response: `.get` with the source's
defaults (`HasPassword`/`HasConfiguredPassword` default `True`, `Policy`
defaults to the empty blob, the rest default `None`). -/
def extractUserInfo (b : AuthBody) : UserInfo :=
  { id := b.userId, name := b.userName
    has_password := b.hasPassword.getD true
    has_configured_password := b.hasConfiguredPassword.getD true
    server_id := b.serverId, access_token := b.accessToken
    policy := some (b.policy.getD "") }

/-- Outcome of the HTTP POST to one server: a raised
`requests.exceptions.RequestException` (network-level error) or a response
with a status code and parsed JSON body. -/
inductive HttpOutcome where
  | netError
  | response (status : Nat) (body : AuthBody)
deriving Repr, DecidableEq

/-- `_authenticate_against_server` (jellyfin_auth.py:45-110) as a function
of the HTTP outcome: a network error is re-raised (`Except.error`); status
200 yields `(True, user_info)`; status 401 (invalid credentials) and every
other status yield `(False, None)`. -/
def authenticateAgainstServer (o : HttpOutcome) :
    Except Unit (Bool × Option UserInfo) :=
  match o with
  | .netError => .error ()
  | .response status body =>
    if status = 200 then .ok (true, some (extractUserInfo body))
    else if status = 401 then .ok (false, none)
    else .ok (false, none)

/-- A configured `MediaServer` row paired with the outcome its
`AuthenticateByName` endpoint produces for the credentials under test. -/
structure ServerTrial where
  name : String
  outcome : HttpOutcome
deriving Repr, DecidableEq

/-- `authenticate_jellyfin_user` (jellyfin_auth.py:10-42): walk the
configured Jellyfin servers in order; a raised exception is logged and the
scan continues; a `(False, _)` result also continues; the first
`(True, user_info)` returns `(True, server.name, user_info)`; an exhausted
(or empty) list returns `(False, None, None)`. -/
def authenticateJellyfinUser : List ServerTrial → Bool × Option String × Option UserInfo
  | [] => (false, none, none)
  | s :: rest =>
    match authenticateAgainstServer s.outcome with
    | .ok (true, info) => (true, some s.name, info)
    | _ => authenticateJellyfinUser rest

/-- `o` is an outcome on which `_authenticate_against_server` succeeds
(an HTTP 200 response). -/
def successOutcome : HttpOutcome → Bool
  | .response 200 _ => true
  | _ => false

/-! ## Guest-account provisioning (`create_guest_account_from_jellyfin`) -/

/-- An `AdminAccount` row: the fields written by
`create_guest_account_from_jellyfin`. -/
structure AdminAccount where
  username : String
  role : String
  jellyfin_server : Option String
  jellyfin_user_id : Option String
  password_hash : String
deriving Repr, DecidableEq

/-- `create_guest_account_from_jellyfin` (jellyfin_auth.py:113-145):
construct a guest `AdminAccount` linked to the authenticating server, set a
random unusable password (`hash` is the abstract `set_password` hashing,
`randTok` the fresh `secrets.token_urlsafe(32)` value), add and commit.
Returns the account and the updated account table. -/
def createGuestAccountFromJellyfin (hash : String → String) (randTok : String)
    (username jellyfinServerName : String) (info : UserInfo)
    (accounts : List AdminAccount) : AdminAccount × List AdminAccount :=
  let account : AdminAccount :=
    { username := username, role := "guest"
      jellyfin_server := some jellyfinServerName
      jellyfin_user_id := info.id
      password_hash := hash randTok }
  (account, accounts ++ [account])

/-- Modelled from the spec: the login route's delegated-auth provisioning
step is not among the embedded sources (only `create_guest_account_from_jellyfin`
and its tests are); per §4.6, "if no local Account exists with the given
username, create one …; if an Account already exists with that username, it
is reused as-is — the service must not create duplicates". -/
def provisionGuestAccount (hash : String → String) (randTok : String)
    (username jellyfinServerName : String) (info : UserInfo)
    (accounts : List AdminAccount) : AdminAccount × List AdminAccount :=
  match accounts.find? (fun a => a.username == username) with
  | some existing => (existing, accounts)
  | none =>
    createGuestAccountFromJellyfin hash randTok username jellyfinServerName info accounts

/-- Number of accounts stored under a given username. -/
def countUsername (accounts : List AdminAccount) (username : String) : Nat :=
  (accounts.filter (fun a => a.username == username)).length

/-! ## Media-client configuration resolution (`MediaClient.__init__`) -/

/-- A `MediaServer` configuration row: the fields read by
`MediaClient._attach_server_row` plus the `server_type` tag it is matched
on. -/
structure MediaServerRow where
  id : Nat
  name : String
  server_type : String
  url : String
  api_key : String
deriving Repr, DecidableEq

/-- A legacy `Settings` key/value row. -/
structure SettingsRow where
  key : String
  value : String
deriving Repr, DecidableEq

/-- The attributes `MediaClient.__init__` may set.  `server_row` and
`server_id` are `none` exactly when the attribute was never assigned, so a
read of `server_id` on such an instance is an `AttributeError`. -/
structure ClientState where
  server_row : Option MediaServerRow
  server_id : Option Nat
  url : Option String
  token : Option String
deriving Repr, DecidableEq

/-- `MediaClient._attach_server_row` (client_base.py:113-118). -/
def attachServerRow (row : MediaServerRow) : ClientState :=
  { server_row := some row, server_id := some row.id
    url := some row.url, token := some row.api_key }

/-- `scalar()` of `db.session.query(Settings.value).filter_by(key=k)`:
the first matching row's value, or `None`. -/
def settingsScalar (settings : List SettingsRow) (k : String) : Option String :=
  (settings.find? (fun s => s.key == k)).map (fun s => s.value)

/-- `MediaClient.__init__` (client_base.py:73-107).  `serverTypeAttr` is
`getattr(cls, "_server_type", None)`; `mediaServers` and `settings` are the
persisted tables.  Resolution order: explicit row; else the first
`MediaServer` row whose `server_type` matches a truthy `_server_type`; else
the legacy `Settings` keys, leaving `server_row`/`server_id` unassigned. -/
def clientInit (explicitRow : Option MediaServerRow)
    (serverTypeAttr : Option String) (mediaServers : List MediaServerRow)
    (settings : List SettingsRow) (urlKey tokenKey : String) : ClientState :=
  match explicitRow with
  | some row => attachServerRow row
  | none =>
    let byType :=
      if otruthy serverTypeAttr then
        match serverTypeAttr with
        | some st => mediaServers.find? (fun r => r.server_type == st)
        | none => none
      else none
    match byType with
    | some row => attachServerRow row
    | none =>
      { server_row := none, server_id := none
        url := settingsScalar settings urlKey
        token := settingsScalar settings tokenKey }

/-- `MediaClient.generate_image_proxy_url` (client_base.py:120-138): reads
`self.server_id` — an `AttributeError` on a fallback-constructed instance —
and otherwise returns `/image-proxy?token=<quote_plus(token)>`.
`generateToken` abstracts the external `ImageProxyService.generate_token`
and `quotePlus` the external `urllib.parse.quote_plus`. -/
def generateImageProxyUrl (generateToken : String → Nat → String)
    (quotePlus : String → String) (c : ClientState) (imageUrl : String) :
    Except String String :=
  match c.server_id with
  | none => .error "AttributeError: server_id"
  | some sid => .ok ("/image-proxy?token=" ++ quotePlus (generateToken imageUrl sid))

/-! ## Statistics and the readonly path (`statistics`, `get_user_count`,
`get_server_info`, `get_readonly_statistics`)

`statistics()` is abstract in the base class; its documented behaviour is
that it "may trigger user synchronization and database writes".  It is
embedded as an abstract result together with an effect trace; invoking it
always emits the `statisticsCall` effect ahead of whatever effects the
concrete implementation performs. -/

/-- Observable effects of a statistics-related call: entering the
`statistics()` code path, and a write to persistent storage. -/
inductive Eff where
  | statisticsCall
  | dbWrite
deriving Repr, DecidableEq

/-- The fields of the `statistics()` result dictionary that the default
`get_user_count`/`get_server_info` read, each optional because they are read
with `.get` defaults. -/
structure StatsResult where
  user_stats_total_users : Option Nat
  user_stats_active_sessions : Option Nat
  server_stats_version : Option String
  server_stats_transcoding_sessions : Option Nat
deriving Repr, DecidableEq

/-- The `get_server_info` result dictionary. -/
structure ServerInfo where
  version : String
  transcoding_sessions : Nat
  active_sessions : Nat
deriving Repr, DecidableEq

/-- A concrete media client as seen by the base-class default methods: the
behaviour of its `statistics()` implementation (result or raised exception,
plus the storage effects it performs), and the optional subclass overrides
of `get_user_count` / `get_server_info`.  The overrides are modelled from
the spec (§4.4: "subclasses may specialize for efficiency"; the override
code itself is not among the embedded sources). -/
structure StatsClient where
  statisticsResult : Except Unit StatsResult
  statisticsEffects : List Eff
  userCountOverride : Option (Nat × List Eff)
  serverInfoOverride : Option (ServerInfo × List Eff)

/-- Invoking `self.statistics()`: the call effect followed by the
implementation's own effects, alongside its result. -/
def runStatistics (c : StatsClient) : Except Unit StatsResult × List Eff :=
  (c.statisticsResult, Eff.statisticsCall :: c.statisticsEffects)

/-- `MediaClient.get_user_count` (client_base.py:370-384): the subclass
override if present, else the base default — call `statistics()`, extract
`user_stats.total_users` (default 0), and swallow any exception into 0. -/
def getUserCount (c : StatsClient) : Nat × List Eff :=
  match c.userCountOverride with
  | some r => r
  | none =>
    match runStatistics c with
    | (.ok stats, effs) => (stats.user_stats_total_users.getD 0, effs)
    | (.error _, effs) => (0, effs)

/-- `MediaClient.get_server_info` (client_base.py:386-412): the subclass
override if present, else the base default — call `statistics()`, extract
the server fields with defaults, and swallow any exception into the fixed
"Unknown"/zero placeholder. -/
def getServerInfo (c : StatsClient) : ServerInfo × List Eff :=
  match c.serverInfoOverride with
  | some r => r
  | none =>
    match runStatistics c with
    | (.ok stats, effs) =>
      ({ version := stats.server_stats_version.getD "Unknown"
         transcoding_sessions := stats.server_stats_transcoding_sessions.getD 0
         active_sessions := stats.user_stats_active_sessions.getD 0 }, effs)
    | (.error _, effs) =>
      ({ version := "Unknown", transcoding_sessions := 0, active_sessions := 0 }, effs)

/-- The `get_readonly_statistics` result dictionary (library and content
stats are the fixed minimal placeholders). -/
structure ReadonlyStats where
  total_users : Nat
  active_sessions : Nat
  server_stats : ServerInfo
deriving Repr, DecidableEq

/-- `MediaClient.get_readonly_statistics` (client_base.py:414-432): build
the lightweight dictionary from `get_user_count()` and `get_server_info()`,
in that order; the method adds no storage effects of its own. -/
def getReadonlyStatistics (c : StatsClient) : ReadonlyStats × List Eff :=
  let uc := getUserCount c
  let si := getServerInfo c
  ({ total_users := uc.1, active_sessions := 0, server_stats := si.1 },
    uc.2 ++ si.2)

/-- The source's email admission test for unlimited invites:
`if email and EMAIL_RE.fullmatch(email)` — a present, nonempty,
syntactically valid email. -/
def emailOK (validEmail : String → Bool) : Option String → Bool
  | none => false
  | some e => !(e == "") && validEmail e

/-! ## Theorems -/

/-- `linkKwargs` either leaves the kwargs unchanged or only overwrites
`identity_id` with an adopted group. -/
theorem linkKwargs_shape (validEmail : String → Bool)
    (invitations : List Invitation) (users : List RemoteUser)
    (kw : UserKwargs) :
    linkKwargs validEmail invitations users kw = kw ∨
      ∃ g, linkKwargs validEmail invitations users kw
        = { kw with identity_id := some g } := by
  unfold linkKwargs
  repeat' split
  all_goals first
    | (left; rfl)
    | (right; exact ⟨_, rfl⟩)

/-- Restoring the candidate's original `identity_id` recovers the original
kwargs: linking touches no other field. -/
theorem linkKwargs_only_identity (validEmail : String → Bool)
    (invitations : List Invitation) (users : List RemoteUser)
    (kw : UserKwargs) :
    { linkKwargs validEmail invitations users kw with
        identity_id := kw.identity_id } = kw := by
  rcases linkKwargs_shape validEmail invitations users kw with h | ⟨g, h⟩ <;>
    rw [h]

/-- C1: For a candidate carrying a nonempty invitation code whose
`Invitation` is limited (not unlimited), identity linking looks up the first
existing `RemoteUser` with the same code, and if that user already has an
identity group the candidate adopts that same group — regardless of the
candidate's or the existing user's email.  In particular a second redemption
of an already-redeemed limited code yields the first redemption's group. -/
theorem limited_invite_adopts_identity_group
    (validEmail : String → Bool) (invitations : List Invitation)
    (users : List RemoteUser) (kw : UserKwargs) (c : String)
    (inv : Invitation) (ex : RemoteUser) (g : Nat)
    (hcode : kw.code = some c) (hc : c ≠ "")
    (hinv : invitations.find? (fun i => i.code == c) = some inv)
    (hlim : inv.unlimited = false)
    (hex : users.find? (fun u => u.code == some c) = some ex)
    (hg : ex.identity_id = some g) :
    (linkKwargs validEmail invitations users kw).identity_id = some g := by
  unfold linkKwargs
  simp only [hcode, hc, hinv, hlim, hex, hg, if_false, ite_false]
  simp [hc]

/-- Witness for C1: a limited code `CODE1` already redeemed by
`alice`/`a@x.com` with identity group 7; a second redemption by
`bob`/`b@y.com` (different email) adopts group 7. -/
theorem limited_invite_adopts_identity_group_witness :
    (linkKwargs (fun _ => true)
        [{ code := "CODE1", unlimited := false }]
        [{ username := "alice", email := some "a@x.com", code := some "CODE1",
           identity_id := some 7 }]
        { username := "bob", email := some "b@y.com", code := some "CODE1",
          identity_id := none }).identity_id = some 7 :=
  limited_invite_adopts_identity_group (fun _ => true) _ _ _ "CODE1"
    { code := "CODE1", unlimited := false }
    { username := "alice", email := some "a@x.com", code := some "CODE1",
      identity_id := some 7 } 7
    rfl (by decide) (by decide) rfl (by decide) rfl

/-- C2: For a candidate carrying a nonempty invitation code whose
`Invitation` is unlimited, identity linking adopts an existing identity
group only when the candidate's email passes the syntactic-validity test
and the first existing `RemoteUser` with the same code and same email
already has a group: (i) a missing/empty/invalid email leaves the candidate
unchanged (no identity-group match); (ii) a valid email matched by no
existing same-code row leaves it unchanged; (iii) a match without a group
leaves it unchanged; (iv) a match with group `g` makes the candidate adopt
`g` — so a later redemption with the same code and email as an earlier
linked redemption yields that earlier group. -/
theorem unlimited_invite_links_only_same_valid_email
    (validEmail : String → Bool) (invitations : List Invitation)
    (users : List RemoteUser) (kw : UserKwargs) (c : String)
    (inv : Invitation)
    (hcode : kw.code = some c) (hc : c ≠ "")
    (hinv : invitations.find? (fun i => i.code == c) = some inv)
    (hunl : inv.unlimited = true) :
    (emailOK validEmail kw.email = false →
      linkKwargs validEmail invitations users kw = kw) ∧
    (∀ e, kw.email = some e → emailOK validEmail kw.email = true →
      users.find? (fun u => u.code == some c && u.email == some e) = none →
      linkKwargs validEmail invitations users kw = kw) ∧
    (∀ e ex, kw.email = some e → emailOK validEmail kw.email = true →
      users.find? (fun u => u.code == some c && u.email == some e) = some ex →
      ex.identity_id = none →
      linkKwargs validEmail invitations users kw = kw) ∧
    (∀ e ex g, kw.email = some e → emailOK validEmail kw.email = true →
      users.find? (fun u => u.code == some c && u.email == some e) = some ex →
      ex.identity_id = some g →
      (linkKwargs validEmail invitations users kw).identity_id = some g) := by
  refine ⟨?_, ?_, ?_, ?_⟩
  · intro hbad
    unfold linkKwargs
    rcases hm : kw.email with _ | e
    · simp only [hcode, hinv, hunl, hm]
      simp [hc]
    · rw [hm] at hbad
      simp only [emailOK, Bool.and_eq_false_iff, Bool.not_eq_false',
        beq_iff_eq] at hbad
      simp only [hcode, hinv, hunl, hm]
      rcases hbad with hbad | hbad
      · simp [hc, hbad]
      · rcases eq_or_ne e "" with he | he
        · simp [hc, he]
        · simp [hc, he, hbad]
  · intro e hm hok hfind
    rw [hm] at hok
    simp only [emailOK, Bool.and_eq_true, Bool.not_eq_true', beq_eq_false_iff_ne,
      ne_eq] at hok
    unfold linkKwargs
    simp [hcode, hc, hinv, hunl, hm, hok.1, hok.2, hfind]
  · intro e ex hm hok hfind hgnone
    rw [hm] at hok
    simp only [emailOK, Bool.and_eq_true, Bool.not_eq_true', beq_eq_false_iff_ne,
      ne_eq] at hok
    unfold linkKwargs
    simp [hcode, hc, hinv, hunl, hm, hok.1, hok.2, hfind, hgnone]
  · intro e ex g hm hok hfind hg
    rw [hm] at hok
    simp only [emailOK, Bool.and_eq_true, Bool.not_eq_true', beq_eq_false_iff_ne,
      ne_eq] at hok
    unfold linkKwargs
    simp [hcode, hc, hinv, hunl, hm, hok.1, hok.2, hfind, hg]

/-- Witness for C2: unlimited code `OPEN42` first redeemed by `a@x.com`
with identity group 5; a redemption with email `b@x.com` is left unchanged
(no identity-group match) while a redemption with `a@x.com` again adopts
group 5. -/
theorem unlimited_invite_links_only_same_valid_email_witness :
    linkKwargs (fun e => e == "a@x.com" || e == "b@x.com")
        [{ code := "OPEN42", unlimited := true }]
        [{ username := "ann", email := some "a@x.com", code := some "OPEN42",
           identity_id := some 5 }]
        { username := "bea", email := some "b@x.com", code := some "OPEN42",
          identity_id := none }
      = { username := "bea", email := some "b@x.com", code := some "OPEN42",
          identity_id := none } ∧
    (linkKwargs (fun e => e == "a@x.com" || e == "b@x.com")
        [{ code := "OPEN42", unlimited := true }]
        [{ username := "ann", email := some "a@x.com", code := some "OPEN42",
           identity_id := some 5 }]
        { username := "ann2", email := some "a@x.com", code := some "OPEN42",
          identity_id := none }).identity_id = some 5 :=
  ⟨(unlimited_invite_links_only_same_valid_email
      (fun e => e == "a@x.com" || e == "b@x.com")
      [{ code := "OPEN42", unlimited := true }]
      [{ username := "ann", email := some "a@x.com", code := some "OPEN42",
         identity_id := some 5 }]
      { username := "bea", email := some "b@x.com", code := some "OPEN42",
        identity_id := none }
      "OPEN42" { code := "OPEN42", unlimited := true }
      rfl (by decide) (by decide) rfl).2.1
    "b@x.com" rfl (by decide) (by decide),
   (unlimited_invite_links_only_same_valid_email
      (fun e => e == "a@x.com" || e == "b@x.com")
      [{ code := "OPEN42", unlimited := true }]
      [{ username := "ann", email := some "a@x.com", code := some "OPEN42",
         identity_id := some 5 }]
      { username := "ann2", email := some "a@x.com", code := some "OPEN42",
        identity_id := none }
      "OPEN42" { code := "OPEN42", unlimited := true }
      rfl (by decide) (by decide) rfl).2.2.2
    "a@x.com"
    { username := "ann", email := some "a@x.com", code := some "OPEN42",
      identity_id := some 5 }
    5 rfl (by decide) (by decide) rfl⟩

/-- C7: `_create_user_with_identity_linking` never commits: the committed
`User` table, the invitation table and the commit counter are untouched;
the new record is only added to the session's pending rows; and the record
it builds is the candidate's kwargs with at most the `identity_id` field
resolved (restoring the original `identity_id` recovers the input
unchanged). -/
theorem identity_linking_commits_nothing (validEmail : String → Bool)
    (db : LinkDB) (kw : UserKwargs) :
    (createUserWithIdentityLinking validEmail db kw).2.users = db.users ∧
    (createUserWithIdentityLinking validEmail db kw).2.invitations
      = db.invitations ∧
    (createUserWithIdentityLinking validEmail db kw).2.commits = db.commits ∧
    (createUserWithIdentityLinking validEmail db kw).2.pending
      = db.pending ++ [(createUserWithIdentityLinking validEmail db kw).1] ∧
    (createUserWithIdentityLinking validEmail db kw).1
      = mkUser (linkKwargs validEmail db.invitations db.users kw) ∧
    { linkKwargs validEmail db.invitations db.users kw with
        identity_id := kw.identity_id } = kw := by
  unfold createUserWithIdentityLinking
  by_cases h : otruthy kw.email <;>
    simp [h, linkKwargs_only_identity]

/-- A server whose outcome is not an HTTP 200 (network error, 401, or any
other status) is skipped: the scan result is that of the remaining
servers. -/
theorem authenticateJellyfinUser_skip (s : ServerTrial)
    (rest : List ServerTrial) (h : successOutcome s.outcome = false) :
    authenticateJellyfinUser (s :: rest) = authenticateJellyfinUser rest := by
  rcases ho : s.outcome with _ | ⟨status, body⟩
  · simp [authenticateJellyfinUser, authenticateAgainstServer, ho]
  · rw [ho] at h
    have hstatus : status ≠ 200 := by
      intro hs
      rw [hs] at h
      simp [successOutcome] at h
    simp [authenticateJellyfinUser, authenticateAgainstServer, ho, hstatus]

/-- C3: the delegated-authentication scan walks the configured servers in
order and (i) when no server's outcome is an HTTP 200 — every one a network
error, an explicit 401 rejection, or another failure status — including the
no-servers case, it returns failure with no server name and no user info;
(ii) when the servers split as a prefix of non-successes followed by a
server answering HTTP 200, it stops there and returns success with that
server's name and the normalized user info extracted from its response
body. -/
theorem delegated_auth_scan :
    (∀ servers : List ServerTrial,
      (∀ t ∈ servers, successOutcome t.outcome = false) →
      authenticateJellyfinUser servers = (false, none, none)) ∧
    (∀ (pre : List ServerTrial) (s : ServerTrial) (post : List ServerTrial)
        (body : AuthBody),
      (∀ t ∈ pre, successOutcome t.outcome = false) →
      s.outcome = HttpOutcome.response 200 body →
      authenticateJellyfinUser (pre ++ s :: post)
        = (true, some s.name, some (extractUserInfo body))) := by
  constructor
  · intro servers
    induction servers with
    | nil => intro _; rfl
    | cons s rest ih =>
      intro h
      rw [authenticateJellyfinUser_skip s rest (h s (List.mem_cons_self s rest))]
      exact ih fun t ht => h t (List.mem_cons_of_mem s ht)
  · intro pre s post body hpre hs
    induction pre with
    | nil =>
      simp only [List.nil_append]
      simp [authenticateJellyfinUser, authenticateAgainstServer, hs]
    | cons p rest ih =>
      rw [List.cons_append,
        authenticateJellyfinUser_skip p (rest ++ s :: post)
          (hpre p (List.mem_cons_self p rest))]
      exact ih fun t ht => hpre t (List.mem_cons_of_mem p ht)

/-- Witness for C3: three configured servers where the first two raise
network errors and the third answers HTTP 200 — the scan succeeds,
attributed to the third server's name with its normalized user info; and
three servers all answering 401 — the scan fails with no name and no
info. -/
theorem delegated_auth_scan_witness :
    authenticateJellyfinUser
        [{ name := "S1", outcome := .netError },
         { name := "S2", outcome := .netError },
         { name := "S3", outcome := .response 200
            { userId := some "u1", userName := some "alice",
              hasPassword := some true, hasConfiguredPassword := some true,
              serverId := some "sid3", accessToken := some "tok",
              policy := some "{}" } }]
      = (true, some "S3", some
          { id := some "u1", name := some "alice", has_password := true,
            has_configured_password := true, server_id := some "sid3",
            access_token := some "tok", policy := some "{}" }) ∧
    authenticateJellyfinUser
        [{ name := "S1", outcome := .response 401
            { userId := none, userName := none, hasPassword := none,
              hasConfiguredPassword := none, serverId := none,
              accessToken := none, policy := none } },
         { name := "S2", outcome := .response 401
            { userId := none, userName := none, hasPassword := none,
              hasConfiguredPassword := none, serverId := none,
              accessToken := none, policy := none } }]
      = (false, none, none) :=
  ⟨delegated_auth_scan.2
      [{ name := "S1", outcome := .netError },
       { name := "S2", outcome := .netError }]
      { name := "S3", outcome := .response 200
          { userId := some "u1", userName := some "alice",
            hasPassword := some true, hasConfiguredPassword := some true,
            serverId := some "sid3", accessToken := some "tok",
            policy := some "{}" } }
      []
      { userId := some "u1", userName := some "alice",
        hasPassword := some true, hasConfiguredPassword := some true,
        serverId := some "sid3", accessToken := some "tok",
        policy := some "{}" }
      (by decide) rfl,
   delegated_auth_scan.1
      [{ name := "S1", outcome := .response 401
          { userId := none, userName := none, hasPassword := none,
            hasConfiguredPassword := none, serverId := none,
            accessToken := none, policy := none } },
       { name := "S2", outcome := .response 401
          { userId := none, userName := none, hasPassword := none,
            hasConfiguredPassword := none, serverId := none,
            accessToken := none, policy := none } }]
      (by decide)⟩

/-- C4: on a delegated-authentication success for a username with no
existing local `AdminAccount` (no stored account has that username), the
provisioning step creates exactly one account with that username: it has
role `guest`, the authenticating server's linkage fields, and a local
password hashed from the freshly generated random token (never compared by
the delegated login path); a later provisioning call for the same username —
with any server, info or random token — returns that same account and
leaves the table unchanged, so the count for the username stays at one. -/
theorem delegated_provisioning_creates_once
    (hash : String → String) (randTok : String)
    (uname sname : String) (info : UserInfo) (accounts : List AdminAccount)
    (hfree : accounts.find? (fun a => a.username == uname) = none) :
    (provisionGuestAccount hash randTok uname sname info accounts).1
      = { username := uname, role := "guest", jellyfin_server := some sname
          jellyfin_user_id := info.id, password_hash := hash randTok } ∧
    countUsername
      (provisionGuestAccount hash randTok uname sname info accounts).2 uname
      = 1 ∧
    (∀ (hash2 : String → String) (randTok2 sname2 : String)
        (info2 : UserInfo),
      provisionGuestAccount hash2 randTok2 uname sname2 info2
          (provisionGuestAccount hash randTok uname sname info accounts).2
        = ((provisionGuestAccount hash randTok uname sname info accounts).1,
           (provisionGuestAccount hash randTok uname sname info accounts).2)) := by
  have hfilter : accounts.filter (fun a => a.username == uname) = [] := by
    rw [List.filter_eq_nil_iff]
    intro a ha
    have := List.find?_eq_none.mp hfree a ha
    simpa using this
  have hstep :
      provisionGuestAccount hash randTok uname sname info accounts
        = ({ username := uname, role := "guest", jellyfin_server := some sname
             jellyfin_user_id := info.id, password_hash := hash randTok },
           accounts ++
            [{ username := uname, role := "guest",
               jellyfin_server := some sname, jellyfin_user_id := info.id,
               password_hash := hash randTok }]) := by
    unfold provisionGuestAccount createGuestAccountFromJellyfin
    rw [hfree]
  refine ⟨by rw [hstep], ?_, ?_⟩
  · rw [hstep]
    simp [countUsername, List.filter_append, hfilter]
  · intro hash2 randTok2 sname2 info2
    rw [hstep]
    unfold provisionGuestAccount
    rw [List.find?_append, hfree]
    simp [List.find?]

/-- Witness for C4: first delegated-auth success for unknown username
`jfuser` creates the one guest account linked to server `Main`; a second
success (even attributed to another server) reuses it and the count stays
at one. -/
theorem delegated_provisioning_creates_once_witness :
    (provisionGuestAccount (fun s => "h" ++ s) "rand1" "jfuser" "Main"
        { id := some "uid1", name := some "jfuser", has_password := true,
          has_configured_password := true, server_id := some "sid",
          access_token := some "at", policy := some "{}" } []).1
      = { username := "jfuser", role := "guest",
          jellyfin_server := some "Main", jellyfin_user_id := some "uid1",
          password_hash := "hrand1" } ∧
    countUsername
      (provisionGuestAccount (fun s => "h" ++ s) "rand1" "jfuser" "Main"
        { id := some "uid1", name := some "jfuser", has_password := true,
          has_configured_password := true, server_id := some "sid",
          access_token := some "at", policy := some "{}" } []).2 "jfuser" = 1 ∧
    provisionGuestAccount (fun s => "h" ++ s) "rand2" "jfuser" "Backup"
        { id := some "uid9", name := some "jfuser", has_password := true,
          has_configured_password := true, server_id := some "sid9",
          access_token := some "at9", policy := some "{}" }
        (provisionGuestAccount (fun s => "h" ++ s) "rand1" "jfuser" "Main"
          { id := some "uid1", name := some "jfuser", has_password := true,
            has_configured_password := true, server_id := some "sid",
            access_token := some "at", policy := some "{}" } []).2
      = ((provisionGuestAccount (fun s => "h" ++ s) "rand1" "jfuser" "Main"
          { id := some "uid1", name := some "jfuser", has_password := true,
            has_configured_password := true, server_id := some "sid",
            access_token := some "at", policy := some "{}" } []).1,
         (provisionGuestAccount (fun s => "h" ++ s) "rand1" "jfuser" "Main"
          { id := some "uid1", name := some "jfuser", has_password := true,
            has_configured_password := true, server_id := some "sid",
            access_token := some "at", policy := some "{}" } []).2) := by
  have h := delegated_provisioning_creates_once (fun s => "h" ++ s) "rand1"
    "jfuser" "Main"
    { id := some "uid1", name := some "jfuser", has_password := true,
      has_configured_password := true, server_id := some "sid",
      access_token := some "at", policy := some "{}" } [] rfl
  exact ⟨h.1, h.2.1, h.2.2 (fun s => "h" ++ s) "rand2" "Backup"
    { id := some "uid9", name := some "jfuser", has_password := true,
      has_configured_password := true, server_id := some "sid9",
      access_token := some "at9", policy := some "{}" }⟩

/-- C5: an authenticated guest actor is always refused by `admin_required`
with the forbidden (403) condition — the wrapped operation is never invoked,
whatever it is — while `guest_allowed` always invokes the wrapped operation
and passes its return value through unchanged; an unauthenticated actor
receives the redirect-to-login response from either guard. -/
theorem guest_guard_enforcement :
    (∀ (α : Type) (f : Unit → α) (u : Actor), IsGuestActor u →
      admin_required f u = GuardResult.forbidden ∧
      guest_allowed f u = GuardResult.ok (f ())) ∧
    (∀ (α : Type) (f : Unit → α) (u : Actor), u.is_authenticated = false →
      admin_required f u = GuardResult.redirectLogin ∧
      guest_allowed f u = GuardResult.redirectLogin) := by
  constructor
  · rintro α f u ⟨hauth, hadm, hrole, hid⟩
    constructor
    · unfold admin_required
      have hid' : (u.id_attr == some "admin") = false := by
        simpa using hid
      simp [hauth, hadm, hid']
    · unfold guest_allowed
      simp [hauth, hrole]
  · intro α f u hauth
    unfold admin_required guest_allowed
    simp [hauth]

/-- Witness for C5: a concrete guest account (row id "5", role `guest`,
`is_admin()` false) gets 403 from `admin_required` and the wrapped value
from `guest_allowed`; an anonymous actor is redirected to login by both. -/
theorem guest_guard_enforcement_witness :
    admin_required (fun _ => 42)
        { is_authenticated := true, is_admin_attr := some false,
          role_attr := some "guest", id_attr := some "5" }
      = GuardResult.forbidden ∧
    guest_allowed (fun _ => 42)
        { is_authenticated := true, is_admin_attr := some false,
          role_attr := some "guest", id_attr := some "5" }
      = GuardResult.ok 42 ∧
    admin_required (fun _ => 42)
        { is_authenticated := false, is_admin_attr := none,
          role_attr := none, id_attr := none }
      = GuardResult.redirectLogin ∧
    guest_allowed (fun _ => 42)
        { is_authenticated := false, is_admin_attr := none,
          role_attr := none, id_attr := none }
      = GuardResult.redirectLogin := by
  have h1 := guest_guard_enforcement.1 Nat (fun _ => 42)
    { is_authenticated := true, is_admin_attr := some false,
      role_attr := some "guest", id_attr := some "5" }
    ⟨rfl, rfl, rfl, by decide⟩
  have h2 := guest_guard_enforcement.2 Nat (fun _ => 42)
    { is_authenticated := false, is_admin_attr := none,
      role_attr := none, id_attr := none } rfl
  exact ⟨h1.1, h1.2, h2.1, h2.2⟩

/-- C9: an account created by `create_guest_account_from_jellyfin` carries
both remote-linkage fields together: `jellyfin_server` is the
authenticating server's name and `jellyfin_user_id` is the id from the
normalized user info, which is present for every success response carrying
`User.Id` (the shape §6 guarantees for HTTP 200) — so whenever the info has
an id, both fields are set, never one without the other. -/
theorem delegated_account_linkage_together
    (hash : String → String) (randTok : String)
    (uname sname : String) (info : UserInfo) (accounts : List AdminAccount)
    (uid : String) (hid : info.id = some uid) :
    (createGuestAccountFromJellyfin hash randTok uname sname info
        accounts).1.jellyfin_server = some sname ∧
    (createGuestAccountFromJellyfin hash randTok uname sname info
        accounts).1.jellyfin_user_id = some uid ∧
    (∀ body : AuthBody, (extractUserInfo body).id = body.userId) := by
  refine ⟨rfl, ?_, fun _ => rfl⟩
  simp [createGuestAccountFromJellyfin, hid]

/-- Witness for C9: a concrete success response body with `User.Id` set
yields an account with both linkage fields populated. -/
theorem delegated_account_linkage_together_witness :
    (createGuestAccountFromJellyfin (fun s => "h" ++ s) "r" "u" "Main"
        (extractUserInfo
          { userId := some "uid7", userName := some "u",
            hasPassword := some true, hasConfiguredPassword := some true,
            serverId := some "sid", accessToken := some "tok",
            policy := some "{}" })
        []).1.jellyfin_server = some "Main" ∧
    (createGuestAccountFromJellyfin (fun s => "h" ++ s) "r" "u" "Main"
        (extractUserInfo
          { userId := some "uid7", userName := some "u",
            hasPassword := some true, hasConfiguredPassword := some true,
            serverId := some "sid", accessToken := some "tok",
            policy := some "{}" })
        []).1.jellyfin_user_id = some "uid7" :=
  let h := delegated_account_linkage_together (fun s => "h" ++ s) "r" "u"
    "Main"
    (extractUserInfo
      { userId := some "uid7", userName := some "u",
        hasPassword := some true, hasConfiguredPassword := some true,
        serverId := some "sid", accessToken := some "tok",
        policy := some "{}" })
    [] "uid7" rfl
  ⟨h.1, h.2.1⟩

/-- Helper: with no explicit row, and either no usable `_server_type` tag or
no matching `MediaServer` row, `clientInit` takes the legacy `Settings`
fallback. -/
theorem clientInit_fallback_eq (serverTypeAttr : Option String)
    (mediaServers : List MediaServerRow) (settings : List SettingsRow)
    (urlKey tokenKey : String)
    (hmiss : ∀ st, serverTypeAttr = some st → st ≠ "" →
      mediaServers.find? (fun r => r.server_type == st) = none) :
    clientInit none serverTypeAttr mediaServers settings urlKey tokenKey
      = { server_row := none, server_id := none
          url := settingsScalar settings urlKey
          token := settingsScalar settings tokenKey } := by
  unfold clientInit
  rcases hattr : serverTypeAttr with _ | st
  · simp [otruthy]
  · rcases eq_or_ne st "" with he | he
    · simp [otruthy, he]
    · have ht : otruthy (some st) = true := by simpa [otruthy] using he
      simp [ht, hmiss st hattr he]

/-- C8: configuration resolution at construction follows this exact order:
(i) an explicitly supplied `MediaServer` row is adopted directly; (ii)
otherwise the first `MediaServer` row whose `server_type` matches the
client's registered tag is adopted; (iii) otherwise — no usable tag or no
matching row — the client falls back to the legacy `Settings` keys for URL
and token, and leaves `server_row`/`server_id` unset. -/
theorem client_config_resolution_order (explicitRow : Option MediaServerRow)
    (serverTypeAttr : Option String) (mediaServers : List MediaServerRow)
    (settings : List SettingsRow) (urlKey tokenKey : String) :
    (∀ row, explicitRow = some row →
      clientInit explicitRow serverTypeAttr mediaServers settings urlKey
          tokenKey = attachServerRow row) ∧
    (∀ st row, explicitRow = none → serverTypeAttr = some st → st ≠ "" →
      mediaServers.find? (fun r => r.server_type == st) = some row →
      clientInit explicitRow serverTypeAttr mediaServers settings urlKey
          tokenKey = attachServerRow row) ∧
    (explicitRow = none →
      (∀ st, serverTypeAttr = some st → st ≠ "" →
        mediaServers.find? (fun r => r.server_type == st) = none) →
      clientInit explicitRow serverTypeAttr mediaServers settings urlKey
          tokenKey
        = { server_row := none, server_id := none
            url := settingsScalar settings urlKey
            token := settingsScalar settings tokenKey }) := by
  refine ⟨?_, ?_, ?_⟩
  · intro row h
    rw [h]
    rfl
  · intro st row hnone hattr hne hfind
    rw [hnone]
    unfold clientInit
    rw [hattr]
    have ht : otruthy (some st) = true := by
      simpa [otruthy] using hne
    simp [ht, hfind]
  · intro hnone hmiss
    rw [hnone]
    exact clientInit_fallback_eq serverTypeAttr mediaServers settings urlKey
      tokenKey hmiss

/-- Witness for C8: with one `MediaServer` row of type `jellyfin`, an
explicit row (of another type) wins; without an explicit row the matching
row is adopted; with a non-matching tag the legacy `Settings` keys are read
and no server identity is set. -/
theorem client_config_resolution_order_witness :
    clientInit
        (some { id := 9, name := "Explicit", server_type := "plex",
                url := "http://e", api_key := "ke" })
        (some "jellyfin")
        [{ id := 1, name := "Jelly", server_type := "jellyfin",
           url := "http://j", api_key := "kj" }]
        [{ key := "server_url", value := "http://legacy" },
         { key := "api_key", value := "kl" }]
        "server_url" "api_key"
      = attachServerRow ({ id := 9, name := "Explicit", server_type := "plex",
                           url := "http://e", api_key := "ke" }) ∧
    clientInit none (some "jellyfin")
        [{ id := 1, name := "Jelly", server_type := "jellyfin",
           url := "http://j", api_key := "kj" }]
        [{ key := "server_url", value := "http://legacy" },
         { key := "api_key", value := "kl" }]
        "server_url" "api_key"
      = attachServerRow ({ id := 1, name := "Jelly", server_type := "jellyfin",
                           url := "http://j", api_key := "kj" }) ∧
    clientInit none (some "emby")
        [{ id := 1, name := "Jelly", server_type := "jellyfin",
           url := "http://j", api_key := "kj" }]
        [{ key := "server_url", value := "http://legacy" },
         { key := "api_key", value := "kl" }]
        "server_url" "api_key"
      = { server_row := none, server_id := none,
          url := some "http://legacy", token := some "kl" } := by
  refine ⟨?_, ?_, ?_⟩
  · exact (client_config_resolution_order
      (some { id := 9, name := "Explicit", server_type := "plex",
              url := "http://e", api_key := "ke" })
      (some "jellyfin")
      [{ id := 1, name := "Jelly", server_type := "jellyfin",
         url := "http://j", api_key := "kj" }]
      [{ key := "server_url", value := "http://legacy" },
       { key := "api_key", value := "kl" }]
      "server_url" "api_key").1
      { id := 9, name := "Explicit", server_type := "plex",
        url := "http://e", api_key := "ke" } rfl
  · exact (client_config_resolution_order none (some "jellyfin")
      [{ id := 1, name := "Jelly", server_type := "jellyfin",
         url := "http://j", api_key := "kj" }]
      [{ key := "server_url", value := "http://legacy" },
       { key := "api_key", value := "kl" }]
      "server_url" "api_key").2.1 "jellyfin"
      { id := 1, name := "Jelly", server_type := "jellyfin",
        url := "http://j", api_key := "kj" }
      rfl rfl (by decide) (by decide)
  · have h := (client_config_resolution_order none (some "emby")
      [{ id := 1, name := "Jelly", server_type := "jellyfin",
         url := "http://j", api_key := "kj" }]
      [{ key := "server_url", value := "http://legacy" },
       { key := "api_key", value := "kl" }]
      "server_url" "api_key").2.2 rfl
      (by intro st hst hne; cases hst; decide)
    simpa [settingsScalar] using h

/-- C10: a client constructed through the legacy-settings fallback (no
explicit row, and no usable tag or no matching `MediaServer` row) has
`server_row` and `server_id` unassigned, so `generate_image_proxy_url` on
such an instance fails with an attribute error on `server_id` — for every
image URL and every token-generation collaborator — instead of returning a
proxy URL. -/
theorem fallback_client_image_proxy_fails
    (serverTypeAttr : Option String) (mediaServers : List MediaServerRow)
    (settings : List SettingsRow) (urlKey tokenKey : String)
    (hmiss : ∀ st, serverTypeAttr = some st → st ≠ "" →
      mediaServers.find? (fun r => r.server_type == st) = none) :
    (clientInit none serverTypeAttr mediaServers settings urlKey
        tokenKey).server_id = none ∧
    (clientInit none serverTypeAttr mediaServers settings urlKey
        tokenKey).server_row = none ∧
    (∀ (generateToken : String → Nat → String) (quotePlus : String → String)
        (imageUrl : String),
      generateImageProxyUrl generateToken quotePlus
          (clientInit none serverTypeAttr mediaServers settings urlKey
            tokenKey) imageUrl
        = Except.error "AttributeError: server_id") := by
  have h := clientInit_fallback_eq serverTypeAttr mediaServers settings
    urlKey tokenKey hmiss
  rw [h]
  exact ⟨rfl, rfl, fun _ _ _ => rfl⟩

/-- Witness for C10: a jellyfin-tagged client with no configured
`MediaServer` rows falls back to `Settings` and its
`generate_image_proxy_url` raises the attribute error. -/
theorem fallback_client_image_proxy_fails_witness :
    (clientInit none (some "jellyfin") []
        [{ key := "server_url", value := "http://legacy" }]
        "server_url" "api_key").server_id = none ∧
    generateImageProxyUrl (fun u _ => u) (fun s => s)
        (clientInit none (some "jellyfin") []
          [{ key := "server_url", value := "http://legacy" }]
          "server_url" "api_key") "http://img/1.png"
      = Except.error "AttributeError: server_id" :=
  let h := fallback_client_image_proxy_fails (some "jellyfin") []
    [{ key := "server_url", value := "http://legacy" }] "server_url" "api_key"
    (by intro st hst hne; cases hst; rfl)
  ⟨h.1, h.2.2 (fun u _ => u) (fun s => s) "http://img/1.png"⟩

/-- Counterexample to C6 as stated: a media client inheriting the default
`get_user_count`/`get_server_info` (no overrides) whose `statistics()`
implementation writes to storage — `get_readonly_statistics()` does invoke
the `statistics()` code path, storage write included. -/
theorem readonly_statistics_default_invokes_statistics :
    Eff.statisticsCall ∈ (getReadonlyStatistics
      { statisticsResult := Except.ok
          { user_stats_total_users := some 5
            user_stats_active_sessions := some 1
            server_stats_version := some "10.8"
            server_stats_transcoding_sessions := some 0 }
        statisticsEffects := [Eff.dbWrite]
        userCountOverride := none
        serverInfoOverride := none }).2 ∧
    Eff.dbWrite ∈ (getReadonlyStatistics
      { statisticsResult := Except.ok
          { user_stats_total_users := some 5
            user_stats_active_sessions := some 1
            server_stats_version := some "10.8"
            server_stats_transcoding_sessions := some 0 }
        statisticsEffects := [Eff.dbWrite]
        userCountOverride := none
        serverInfoOverride := none }).2 := by
  constructor <;> decide

/-- C6 (amended): `get_readonly_statistics()` performs no storage access of
its own — its effect trace is exactly `get_user_count()`'s followed by
`get_server_info()`'s — so whenever those two avoid the `statistics()` code
path and storage writes (as the overriding subclasses are directed to do),
`get_readonly_statistics()` never invokes the storage-writing
`statistics()` path; under the inherited defaults, however, both of them
call `statistics()`. -/
theorem readonly_statistics_composes (c : StatsClient) :
    ((getReadonlyStatistics c).2 = (getUserCount c).2 ++ (getServerInfo c).2) ∧
    ((Eff.statisticsCall ∉ (getUserCount c).2 ∧
      Eff.dbWrite ∉ (getUserCount c).2 ∧
      Eff.statisticsCall ∉ (getServerInfo c).2 ∧
      Eff.dbWrite ∉ (getServerInfo c).2) →
      Eff.statisticsCall ∉ (getReadonlyStatistics c).2 ∧
      Eff.dbWrite ∉ (getReadonlyStatistics c).2) ∧
    (c.userCountOverride = none →
      Eff.statisticsCall ∈ (getUserCount c).2) := by
  refine ⟨rfl, ?_, ?_⟩
  · rintro ⟨h1, h2, h3, h4⟩
    constructor
    · show Eff.statisticsCall ∉ (getUserCount c).2 ++ (getServerInfo c).2
      rw [List.mem_append]
      rintro (h | h)
      · exact h1 h
      · exact h3 h
    · show Eff.dbWrite ∉ (getUserCount c).2 ++ (getServerInfo c).2
      rw [List.mem_append]
      rintro (h | h)
      · exact h2 h
      · exact h4 h
  · intro hdef
    unfold getUserCount
    rw [hdef]
    rcases hr : runStatistics c with ⟨res, effs⟩
    have heffs : effs = Eff.statisticsCall :: c.statisticsEffects := by
      have := congrArg Prod.snd hr
      simpa [runStatistics] using this.symm
    cases res <;> simp [heffs]

/-- Witness for C6 (amended): a client overriding both `get_user_count` and
`get_server_info` with effect-free implementations gets an effect-free
`get_readonly_statistics` trace. -/
theorem readonly_statistics_composes_witness :
    Eff.statisticsCall ∉ (getReadonlyStatistics
      { statisticsResult := Except.error ()
        statisticsEffects := [Eff.dbWrite]
        userCountOverride := some (7, [])
        serverInfoOverride := some
          ({ version := "10.8", transcoding_sessions := 0,
             active_sessions := 2 }, []) }).2 ∧
    Eff.dbWrite ∉ (getReadonlyStatistics
      { statisticsResult := Except.error ()
        statisticsEffects := [Eff.dbWrite]
        userCountOverride := some (7, [])
        serverInfoOverride := some
          ({ version := "10.8", transcoding_sessions := 0,
             active_sessions := 2 }, []) }).2 :=
  (readonly_statistics_composes
      { statisticsResult := Except.error ()
        statisticsEffects := [Eff.dbWrite]
        userCountOverride := some (7, [])
        serverInfoOverride := some
          ({ version := "10.8", transcoding_sessions := 0,
             active_sessions := 2 }, []) }).2.1 (by decide)

end Wizarr
